import Mathlib

/-!
# libfabric: PSM3 compile-time configuration and the OPX HFI1 simulator shim

A shallow embedding of

* `prov/psm3/psm3/psm_config.h` (namespace `Psm3`): the header is a set of
  preprocessor definitions, some of them conditional on build switches.  A
  build is a value of `BuildFlags`; an unconditional macro becomes a constant,
  a conditional macro becomes a function of the build that returns `none`
  where the header leaves the macro undefined.
* `prov/opx/include/rdma/opx/opx_hfi1_sim.h` (namespace `Opx`): the simulator
  BAR access functions, with the descriptor, the environment and the C library
  calls made explicit.

C integers are `Nat`/`Int` with explicit reduction modulo `2 ^ 64` or
`2 ^ 32` where the C type wraps (namespace `Clib`).
-/

namespace Clib

/-! ## C integer conversions and the C library calls the sources use -/

/-- Conversion of a C signed integer to `uint64_t` (the usual arithmetic
conversion when an `int` meets a `uint64_t` operand): reduction modulo
`2 ^ 64`, which on a negative value is sign extension. -/
def toU64 (i : Int) : Nat := (i % (2 ^ 64 : Int)).toNat

/-- Conversion of a `uint64_t` to `long` / `off_t` (64-bit two's complement). -/
def toI64 (u : Nat) : Int :=
  if u % 2 ^ 64 < 2 ^ 63 then ((u % 2 ^ 64 : Nat) : Int) else ((u % 2 ^ 64 : Nat) : Int) - 2 ^ 64

/-- Conversion of an integer to `int` (32-bit two's complement). -/
def toI32 (i : Int) : Int :=
  if i % 2 ^ 32 < 2 ^ 31 then i % 2 ^ 32 else i % 2 ^ 32 - 2 ^ 32

/-- Value of a decimal digit character. -/
def digitVal (c : Char) : Option Nat :=
  if '0' ≤ c ∧ c ≤ '9' then some (c.toNat - '0'.toNat) else none

/-- The C `isspace` in the "C" locale: space, and `\t \n \v \f \r`. -/
def isspace (c : Char) : Bool := c.toNat == 32 || (9 ≤ c.toNat && c.toNat ≤ 13)

/-- Value of the longest run of decimal digits at the head of the input. -/
def leadingDigitsValue : List Char → Nat → Nat
  | [], acc => acc
  | c :: cs, acc =>
    match digitVal c with
    | some d => leadingDigitsValue cs (10 * acc + d)
    | none => acc

/-- The C `strtol(s, NULL, 10)`: skip white space, read an optional sign and
the decimal digits that follow, saturate at the ends of `long`. -/
def strtol10 (s : List Char) : Int :=
  match s.dropWhile isspace with
  | '-' :: r => max (-(leadingDigitsValue r 0 : Int)) (-(2 ^ 63))
  | '+' :: r => min (leadingDigitsValue r 0 : Int) (2 ^ 63 - 1)
  | r => min (leadingDigitsValue r 0 : Int) (2 ^ 63 - 1)

/-- The C `atoi`, as glibc implements it: `(int) strtol(s, NULL, 10)`. -/
def atoi (s : String) : Int := toI32 (strtol10 s.data)

/-- The C `getenv` over an environment given as a list of (name, value) pairs;
`none` is the null pointer of an unset variable. -/
def getenv (environ : List (String × String)) (name : String) : Option String :=
  environ.lookup name

/-- The characters `printf` writes for `%d` given an `int`. -/
def fmt_d (i : Int) : List Char :=
  if i < 0 then '-' :: Nat.toDigits 10 i.natAbs else Nat.toDigits 10 i.toNat

/-- The C `snprintf(buf, size, ...)` once the format is expanded to `out`: the
buffer receives at most `size - 1` characters before the terminator. -/
def snprintf (size : Nat) (out : List Char) : String := String.mk (out.take (size - 1))

end Clib

namespace Psm3

/-! ## Build switches -/

/-- The build switches of `psm_config.h` that select between alternative
definitions (each is "defined" or "not defined" before the header is read). -/
structure BuildFlags where
  PSM_CUDA : Bool
  PSM_ONEAPI : Bool
  PSM_DEBUG : Bool
deriving DecidableEq, Repr

/-- Lines 85-87: `PSM_HAVE_GPU` is defined when `PSM_CUDA` or `PSM_ONEAPI` is. -/
def PSM_HAVE_GPU (b : BuildFlags) : Bool := b.PSM_CUDA || b.PSM_ONEAPI

/-! ## Unconditional constants -/

/-- Line 120: max number of unique devices. -/
def PSMI_MAX_RAILS : Nat := 32

/-- Line 122: max number of total QPs; the header notes it must be
`>= PSMI_MAX_RAILS`. -/
def PSMI_MAX_QPS : Nat := 32

/-- Line 130: default setting for the receive thread. -/
def PSMI_RCVTHREAD_FLAGS : Nat := 0x1

/-- Line 186: max TINY payload allowed. -/
def PSM_MQ_NIC_MAX_TINY : Nat := 8

/-- Line 187. -/
def PSM3_MQ_RNDV_NIC_THRESH : Nat := 64000

/-- Line 188: the default rendezvous window, kept as the string the header
defines. -/
def PSM_CPU_NIC_RNDV_WINDOW_STR : String := "131072"

/-- Line 189: max rndv window. -/
def PSM3_MQ_RNDV_NIC_WINDOW_MAX : Nat := 4 * 1024 * 1024

/-- Line 194. -/
def PSM3_MQ_RNDV_SHM_THRESH : Nat := 16000

/-- Line 201: the header defines `LEARN_HASH_SELECTOR` unconditionally. -/
def LEARN_HASH_SELECTOR : Bool := true

/-- Line 202. -/
def NUM_HASH_BUCKETS : Nat := 128

/-- Line 203: queue depth thresh for transition to hashing. -/
def DEFAULT_HASH_THRESH : Nat := 64

/-- Lines 206-213: `NUM_HASH_CONFIGS` as a function of whether
`LEARN_HASH_SELECTOR` is defined. -/
def NUM_HASH_CONFIGS (learn : Bool) : Nat := if learn then 5 else 3

/-! ## Lock discipline (lines 152-160) -/

/-- Which of the lock macros the header defines. -/
structure LockMacros where
  PSMI_LOCK_IS_SPINLOCK : Bool
  PSMI_LOCK_IS_MUTEXLOCK : Bool
  PSMI_LOCK_IS_MUTEXLOCK_DEBUG : Bool
  PSMI_LOCK_MUTEXLOCK_DEBUG_LOG_CONTENTION : Bool
  PSMI_PLOCK_IS_NOLOCK : Bool
deriving DecidableEq, Repr

/-- The `#ifdef PSM_DEBUG ... #else ... #endif` block: the debug branch defines
only `PSMI_LOCK_IS_MUTEXLOCK_DEBUG` (the contention-logging define is commented
out), the other branch defines only `PSMI_LOCK_IS_SPINLOCK`. -/
def lockMacros (b : BuildFlags) : LockMacros :=
  if b.PSM_DEBUG then
    { PSMI_LOCK_IS_SPINLOCK := false
      PSMI_LOCK_IS_MUTEXLOCK := false
      PSMI_LOCK_IS_MUTEXLOCK_DEBUG := true
      PSMI_LOCK_MUTEXLOCK_DEBUG_LOG_CONTENTION := false
      PSMI_PLOCK_IS_NOLOCK := false }
  else
    { PSMI_LOCK_IS_SPINLOCK := true
      PSMI_LOCK_IS_MUTEXLOCK := false
      PSMI_LOCK_IS_MUTEXLOCK_DEBUG := false
      PSMI_LOCK_MUTEXLOCK_DEBUG_LOG_CONTENTION := false
      PSMI_PLOCK_IS_NOLOCK := false }

/-- Number of lock disciplines defined among spinlock, mutexlock and
mutexlock-debug. -/
def lockDisciplineCount (m : LockMacros) : Nat :=
  [m.PSMI_LOCK_IS_SPINLOCK, m.PSMI_LOCK_IS_MUTEXLOCK, m.PSMI_LOCK_IS_MUTEXLOCK_DEBUG].count true

/-! ## GPU constants (lines 162-183) -/

/-- Lines 162-170: `#ifdef PSM_CUDA` gives 65536, `#elif defined(PSM_ONEAPI)`
gives 4096, otherwise the macro is undefined.  The value is a C `int`. -/
def PSMI_GPU_PAGESIZE (b : BuildFlags) : Option Int :=
  if b.PSM_CUDA then some 65536
  else if b.PSM_ONEAPI then some 4096
  else none

/-- Line 173. -/
def GPU_WINDOW_PREFETCH_DEFAULT (b : BuildFlags) : Option Nat :=
  if PSM_HAVE_GPU b then some 2 else none

/-- Line 174. -/
def GPU_SMALLHOSTBUF_SZ (b : BuildFlags) : Option Nat :=
  if PSM_HAVE_GPU b then some (256 * 1024) else none

/-- Line 175: `(PSMI_GPU_PAGESIZE -1)`, an `int`. -/
def GPU_PAGE_OFFSET_MASK (b : BuildFlags) : Option Int :=
  if PSM_HAVE_GPU b then (PSMI_GPU_PAGESIZE b).map (fun p => p - 1) else none

/-- Line 176: `~GPU_PAGE_OFFSET_MASK`, the bitwise complement of an `int`
(two's complement: `~m = -m - 1`). -/
def GPU_PAGE_MASK (b : BuildFlags) : Option Int :=
  if PSM_HAVE_GPU b then (GPU_PAGE_OFFSET_MASK b).map (fun m => ~~~ m) else none

/-- Line 178. -/
def GPUDIRECT_THRESH_RV (b : BuildFlags) : Option Nat :=
  if PSM_HAVE_GPU b then some 3 else none

/-- Line 180. -/
def GDR_COPY_LIMIT_SEND (b : BuildFlags) : Option Nat :=
  if PSM_HAVE_GPU b then some 128 else none

/-- Line 181. -/
def GDR_COPY_LIMIT_RECV (b : BuildFlags) : Option Nat :=
  if PSM_HAVE_GPU b then some 64000 else none

/-- The C expression `x & m` for `uint64_t x` and `int m`: the `int` is
converted to `uint64_t` first. -/
def and64 (x : Nat) (m : Int) : Nat := x &&& Clib.toU64 m

/-! ## Decimal value of a string constant -/

/-- Decimal value of a list of digit characters, most significant first,
continuing from the accumulator; `none` when a character is not a digit. -/
def decimalValueFrom : List Char → Nat → Option Nat
  | [], acc => some acc
  | c :: cs, acc =>
    match Clib.digitVal c with
    | some d => decimalValueFrom cs (10 * acc + d)
    | none => none

/-- Decimal value of a non-empty all-digit string. -/
def decimalValue (s : String) : Option Nat :=
  if s.data = [] then none else decimalValueFrom s.data 0

/-! ## Protocol selection and window clamping -/

/-- The two data paths of the protocol selector. -/
inductive Path where
  | shm
  | nic
deriving DecidableEq, Repr

/-- The protocols of the protocol selector. -/
inductive Protocol where
  | TINY
  | EAGER
  | RENDEZVOUS
deriving DecidableEq, Repr

/-- The rendezvous threshold the header defines for each path. -/
def rndvThresh : Path → Nat
  | Path.shm => PSM3_MQ_RNDV_SHM_THRESH
  | Path.nic => PSM3_MQ_RNDV_NIC_THRESH

/-- Modelled from the spec: `select_protocol(message_size, path, gpu_resident?)`
of section 4.3, whose code is not in the header.  TINY when the size is at most
the small inline threshold (the header's `PSM_MQ_NIC_MAX_TINY`), EAGER when the
size is below the path's rendezvous threshold, RENDEZVOUS when it is at or
above it.  GPU residency does not take part in the classification. -/
def select_protocol (size : Nat) (path : Path) (_gpu_resident : Bool) : Protocol :=
  if size ≤ PSM_MQ_NIC_MAX_TINY then Protocol.TINY
  else if size < rndvThresh path then Protocol.EAGER
  else Protocol.RENDEZVOUS

/-- Modelled from the spec: the rendezvous window clamp of sections 4.3 and 8
(property 7), whose code is not in the header: a requested window above
`PSM3_MQ_RNDV_NIC_WINDOW_MAX` is clamped to that maximum, a smaller one is
kept. -/
def clampRndvWindow (w : Nat) : Nat := min w PSM3_MQ_RNDV_NIC_WINDOW_MAX

/-- Modelled from the spec: section 4.4, sends of at most `GDR_COPY_LIMIT_SEND`
bytes may use the GPU-direct single-copy path; the test itself is not in the
header.  Without GPU support no size qualifies. -/
def gdrCopySendQualifies (b : BuildFlags) (n : Nat) : Bool :=
  match GDR_COPY_LIMIT_SEND b with
  | some l => decide (n ≤ l)
  | none => false

/-- Modelled from the spec: section 4.4, receives of at most
`GDR_COPY_LIMIT_RECV` bytes may use the GPU-direct single-copy path; the test
itself is not in the header.  Without GPU support no size qualifies. -/
def gdrCopyRecvQualifies (b : BuildFlags) (n : Nat) : Bool :=
  match GDR_COPY_LIMIT_RECV b with
  | some l => decide (n ≤ l)
  | none => false

end Psm3

namespace Opx

/-! ## Simulator BAR file selection (`opx_open_sim_bar`, lines 93-134) -/

/-- How a call ends: by `abort()` (directly or through a failed `assert`), by an
access outside an array (undefined behaviour), or by reaching its end with a
value. -/
inductive Res (α : Type) where
  | abort
  | outOfBounds
  | ok (a : α)
deriving DecidableEq, Repr

/-- Lines 96-102: the table of typical simulator BAR files. -/
def sim_barfiles : List String :=
  [ "/sys/devices/pcif00f:00/f00f:00:00.0/resource0",
    "/sys/devices/pcif00f:00/f00f:00:01.0/resource0",
    "/sys/devices/f00f:01:00.0/resource0",
    "/sys/devices/f00f:02:00.0/resource0" ]

/-- Part of the format of line 121 before `%d`. -/
def sysfs_head : String := "/sys/class/infiniband/hfi1_"

/-- Part of the format of line 121 after `%d`. -/
def sysfs_tail : String := "/device/resource0"

/-- Lines 121-122: `snprintf(filename_storage, sizeof(filename_storage),
"/sys/class/infiniband/hfi1_%d/device/resource0", unit)` with the 256-byte
`filename_storage`; the `unsigned unit` is read by `%d` as an `int`. -/
def sysfs_filename (unit : Nat) : String :=
  Clib.snprintf 256 (sysfs_head.data ++ Clib.fmt_d (Clib.toI32 unit) ++ sysfs_tail.data)

/-- Lines 104-124 of `opx_open_sim_bar`: the value of `filename` when control
reaches `open`.  `ndebug` says whether the `assert`s are compiled out; `getenv`
is the process environment; `unit` is an `unsigned` (below `2 ^ 32`). -/
def opx_open_sim_bar_filename (ndebug : Bool) (getenv : String → Option String)
    (unit : Nat) : Res String :=
  match getenv "HFI_FNAME" with
  | some fname => Res.ok fname
  | none =>
    match getenv "FI_OPX_SIMPCI_V" with
    | some s =>
      if !ndebug && !decide (unit < 2) then Res.abort
      else
        let v := Clib.atoi s
        if !ndebug && !decide (v = 0 ∨ v = 1) then Res.abort
        else
          let unit1 := if v ≠ 0 then (unit + 2) % 2 ^ 32 else unit
          match sim_barfiles[unit1]? with
          | some fname => Res.ok fname
          | none => Res.outOfBounds
    | none => Res.ok (sysfs_filename unit)

/-- The function `opx_open_sim_bar` (lines 93-134): select the file, `open` it
(`openf` gives the descriptor `open(filename, O_RDWR)` returns), `abort()` on a
negative descriptor; the result is the value stored in
`fi_opx_global.hfi_local_info.sim_fd`. -/
def opx_open_sim_bar (ndebug : Bool) (getenv : String → Option String)
    (openf : String → Int) (unit : Nat) : Res Int :=
  match opx_open_sim_bar_filename ndebug getenv unit with
  | Res.abort => Res.abort
  | Res.outOfBounds => Res.outOfBounds
  | Res.ok fname =>
    if openf fname < 0 then Res.abort else Res.ok (openf fname)

/-! ## Simulator BAR store and load (`opx_sim_store`, `opx_sim_load`, lines 48-89) -/

/-- One transfer performed on the simulator descriptor. -/
inductive SimOp where
  | write (pos : Nat) (value : Nat)
  | read (pos : Nat)
deriving DecidableEq, Repr

/-- State of the descriptor `fi_opx_global.hfi_local_info.sim_fd`:
whether `lseek` can succeed on it, whether `read`/`write` succeed on it, its
current file offset, and the transfers performed so far (oldest first). -/
structure SimFd where
  seekable : Bool
  io_ok : Bool
  pos : Nat
  ops : List SimOp
deriving DecidableEq, Repr

/-- The call `lseek(fd, offset, SEEK_SET)` with `offset` already converted to
`off_t`: on a seekable descriptor and a non-negative offset the file offset is
set and returned; otherwise (`EINVAL` for a negative offset, `ESPIPE`/`EBADF`
for the descriptor) the result is `-1` and the file offset is unchanged. -/
def lseek_set (f : SimFd) (offset : Int) : Int × SimFd :=
  if f.seekable && decide (0 ≤ offset) then (offset, { f with pos := offset.toNat })
  else (-1, f)

/-- The call `write(fd, value, 8)`: on success the 8 bytes go to the current
file offset, which advances; on failure the result is `-1`. -/
def write8 (f : SimFd) (value : Nat) : Int × SimFd :=
  if f.io_ok then (8, { f with pos := f.pos + 8, ops := f.ops ++ [SimOp.write f.pos value] })
  else (-1, f)

/-- The call `read(fd, &value, 8)`: on success the 8 bytes at the current file
offset (given by `mem`) are returned and the offset advances; on failure the
result is `-1`. -/
def read8 (mem : Nat → Nat) (f : SimFd) : Int × Nat × SimFd :=
  if f.io_ok then (8, mem f.pos, { f with pos := f.pos + 8, ops := f.ops ++ [SimOp.read f.pos] })
  else (-1, 0, f)

/-- How `opx_sim_store` / `opx_sim_load` end: by `abort()`, or by returning. -/
inductive SimOutcome (α : Type) where
  | aborted (f : SimFd)
  | returned (f : SimFd) (a : α)
deriving DecidableEq, Repr

/-- The function `opx_sim_store` (lines 48-68); `offset` and `value` are
`uint64_t`.  The `uint64_t offset` is converted to `off_t` by the call to
`lseek`, and `ret` is compared with `loffset = (long) offset`. -/
def opx_sim_store (f : SimFd) (offset value : Nat) : SimOutcome Unit :=
  let loffset := Clib.toI64 offset
  let r := lseek_set f (Clib.toI64 offset)
  if r.1 ≠ loffset then SimOutcome.aborted r.2
  else
    let w := write8 r.2 value
    if w.1 < 0 then SimOutcome.aborted w.2 else SimOutcome.returned w.2 ()

/-- The function `opx_sim_load` (lines 70-89); `mem` is the content of the BAR
file. -/
def opx_sim_load (mem : Nat → Nat) (f : SimFd) (offset : Nat) : SimOutcome Nat :=
  let loffset := Clib.toI64 offset
  let r := lseek_set f (Clib.toI64 offset)
  if r.1 ≠ loffset then SimOutcome.aborted r.2
  else
    let w := read8 mem r.2
    if w.1 < 0 then SimOutcome.aborted w.2.2 else SimOutcome.returned w.2.2 w.2.1

/-! ## Register address layout (lines 144-193 and 227-239) -/

/-- Lines 144 and 227: `((uint64_t) 0x2000000)`, the same in both builds. -/
def OPX_TXE_PIO_SEND : Nat := 0x2000000

/-- Lines 146 and 229. -/
def OPX_JKR_RXE_PER_CONTEXT_OFFSET : Nat := 0x1600000

/-- Lines 147 and 230. -/
def OPX_WFR_RXE_PER_CONTEXT_OFFSET : Nat := 0x1300000

/-- Lines 149 and 232: `((uint64_t) 8 * 1024)`. -/
def OPX_JKR_RXE_UCTX_STRIDE : Nat := 8 * 1024

/-- Lines 150 and 233: `((uint64_t) 4 * 1024)`. -/
def OPX_WFR_RXE_UCTX_STRIDE : Nat := 4 * 1024

/-- The C expression `context * (64 * 1024L)` for a non-negative context number:
a `long` product (two's complement), here already converted to `uint64_t` as
the addition to the `uint64_t` base converts it. -/
def pio_context_offset (context : Nat) : Nat :=
  Clib.toU64 (Clib.toI64 (context * (64 * 1024)))

/-- The macro `OPX_HFI1_INIT_PIO_SOP(context, input)`.  `sim` says whether
`OPX_SIM_ENABLED` is defined; `hfi1_type` and `wfr` are the values of
`OPX_HFI1_TYPE` and `OPX_HFI1_WFR`, which the header uses but does not define.
Simulator build (lines 152-165): both branches of the chip test compute
`OPX_TXE_PIO_SEND + (context * (64 * 1024L)) + (16 * 1024 * 1024L)` in
`uint64_t`.  Other build (line 235): the macro is its `input`. -/
def OPX_HFI1_INIT_PIO_SOP (sim : Bool) (hfi1_type wfr : Nat) (context input : Nat) : Nat :=
  if sim then
    if hfi1_type &&& wfr ≠ 0 then
      ((OPX_TXE_PIO_SEND + pio_context_offset context) % 2 ^ 64 + 16 * 1024 * 1024) % 2 ^ 64
    else
      ((OPX_TXE_PIO_SEND + pio_context_offset context) % 2 ^ 64 + 16 * 1024 * 1024) % 2 ^ 64
  else input

/-- The macro `OPX_HFI1_INIT_PIO(context, input)`.  Simulator build (lines
167-178): both branches of the chip test compute
`OPX_TXE_PIO_SEND + (context * (64 * 1024L))` in `uint64_t`.  Other build (line
237): the macro is its `input`. -/
def OPX_HFI1_INIT_PIO (sim : Bool) (hfi1_type wfr : Nat) (context input : Nat) : Nat :=
  if sim then
    if hfi1_type &&& wfr ≠ 0 then (OPX_TXE_PIO_SEND + pio_context_offset context) % 2 ^ 64
    else (OPX_TXE_PIO_SEND + pio_context_offset context) % 2 ^ 64
  else input

/-- The macro `OPX_HFI1_INIT_UREGS(context, input)`.  Simulator build (lines
180-193): on WFR `OPX_WFR_RXE_PER_CONTEXT_OFFSET + ((context) *
OPX_WFR_RXE_UCTX_STRIDE)`, otherwise the same with the JKR constants, all in
`uint64_t`.  Other build (line 239): the macro is its `input`. -/
def OPX_HFI1_INIT_UREGS (sim : Bool) (hfi1_type wfr : Nat) (context input : Nat) : Nat :=
  if sim then
    if hfi1_type &&& wfr ≠ 0 then
      (OPX_WFR_RXE_PER_CONTEXT_OFFSET + (context * OPX_WFR_RXE_UCTX_STRIDE) % 2 ^ 64) % 2 ^ 64
    else
      (OPX_JKR_RXE_PER_CONTEXT_OFFSET + (context * OPX_JKR_RXE_UCTX_STRIDE) % 2 ^ 64) % 2 ^ 64
  else input

/-- The stride of the per-context user registers for the chip the test
`OPX_HFI1_TYPE & OPX_HFI1_WFR` selects. -/
def uregs_stride (hfi1_type wfr : Nat) : Nat :=
  if hfi1_type &&& wfr ≠ 0 then OPX_WFR_RXE_UCTX_STRIDE else OPX_JKR_RXE_UCTX_STRIDE

/-- Two address windows `[a, a + la)` and `[b, b + lb)` do not overlap. -/
def windowsDisjoint (a la b lb : Nat) : Prop := a + la ≤ b ∨ b + lb ≤ a

instance (a la b lb : Nat) : Decidable (windowsDisjoint a la b lb) := by
  unfold windowsDisjoint
  infer_instance

end Opx

/-! # Theorems -/

namespace Clib

/-- Masking a 64-bit value with `2 ^ 64 - 2 ^ k` clears its low `k` bits. -/
theorem and_high_mask (k : Nat) (hk : k ≤ 64) (x : Nat) (hx : x < 2 ^ 64) :
    x &&& (2 ^ 64 - 2 ^ k) = 2 ^ k * (x / 2 ^ k) := by
  have hsplit : 2 ^ 64 = 2 ^ k * 2 ^ (64 - k) := by
    rw [← pow_add]; congr 1; omega
  have hm : 2 ^ 64 - 2 ^ k = 2 ^ k * (2 ^ (64 - k) - 1) := by
    rw [Nat.mul_sub, Nat.mul_one, ← hsplit]
  apply Nat.eq_of_testBit_eq
  intro i
  rw [hm, Nat.testBit_and, Nat.testBit_mul_pow_two, Nat.testBit_mul_pow_two,
    Nat.testBit_two_pow_sub_one, ← Nat.shiftRight_eq_div_pow, Nat.testBit_shiftRight]
  by_cases hik : k ≤ i
  · have e : k + (i - k) = i := by omega
    rw [e]
    by_cases hi : i < 64
    · have hlt : i - k < 64 - k := by omega
      simp [hik, hlt]
    · have hxi : x.testBit i = false := by
        apply Nat.testBit_lt_two_pow
        exact lt_of_lt_of_le hx (Nat.pow_le_pow_right (by decide) (by omega))
      simp [hxi]
  · simp [hik]

end Clib

namespace Psm3

/-- C1: protocol boundary.  With the thresholds of the header (16000 for shared
memory, 64000 for the NIC path), 15999 bytes over shared memory select EAGER and
16000 select RENDEZVOUS, 63999 bytes over the NIC path select EAGER and 64000
select RENDEZVOUS; for every size, shared memory selects RENDEZVOUS iff the size
is at least 16000 and the NIC path iff it is at least 64000. -/
theorem select_protocol_boundary (g : Bool) :
    PSM3_MQ_RNDV_SHM_THRESH = 16000 ∧ PSM3_MQ_RNDV_NIC_THRESH = 64000 ∧
    select_protocol 15999 Path.shm g = Protocol.EAGER ∧
    select_protocol 16000 Path.shm g = Protocol.RENDEZVOUS ∧
    select_protocol 63999 Path.nic g = Protocol.EAGER ∧
    select_protocol 64000 Path.nic g = Protocol.RENDEZVOUS ∧
    (∀ n : Nat, select_protocol n Path.shm g = Protocol.RENDEZVOUS ↔ 16000 ≤ n) ∧
    (∀ n : Nat, select_protocol n Path.nic g = Protocol.RENDEZVOUS ↔ 64000 ≤ n) := by
  refine ⟨rfl, rfl, by cases g <;> decide, by cases g <;> decide, by cases g <;> decide,
    by cases g <;> decide, ?_, ?_⟩
  · intro n
    unfold select_protocol rndvThresh PSM_MQ_NIC_MAX_TINY PSM3_MQ_RNDV_SHM_THRESH
    by_cases h1 : n ≤ 8
    · simp [h1]; omega
    · by_cases h2 : n < 16000
      · simp [h1, h2]
      · simp [h1, h2]; omega
  · intro n
    unfold select_protocol rndvThresh PSM_MQ_NIC_MAX_TINY PSM3_MQ_RNDV_NIC_THRESH
    by_cases h1 : n ≤ 8
    · simp [h1]; omega
    · by_cases h2 : n < 64000
      · simp [h1, h2]
      · simp [h1, h2]; omega

/-- C2: window bound.  The default window string has the decimal value 131072,
the maximum is 4194304, the default lies within the maximum, and for every
requested window `w` the clamped window is at most 4194304 and equals `w`
whenever `w` is at most 4194304. -/
theorem rndv_window_bound :
    decimalValue PSM_CPU_NIC_RNDV_WINDOW_STR = some 131072 ∧
    PSM3_MQ_RNDV_NIC_WINDOW_MAX = 4194304 ∧
    131072 ≤ PSM3_MQ_RNDV_NIC_WINDOW_MAX ∧
    ∀ w : Nat, clampRndvWindow w ≤ 4194304 ∧ (w ≤ 4194304 → clampRndvWindow w = w) := by
  refine ⟨by decide, by decide, by decide, ?_⟩
  intro w
  unfold clampRndvWindow PSM3_MQ_RNDV_NIC_WINDOW_MAX
  constructor
  · exact le_trans (Nat.min_le_right _ _) (by decide)
  · intro h
    exact Nat.min_eq_left (le_trans h (by decide))

/-- Witness for C2: the default window 131072 is kept by the clamp. -/
theorem rndv_window_bound_witness :
    (131072 : Nat) ≤ 4194304 ∧ clampRndvWindow 131072 = 131072 :=
  ⟨by decide, (rndv_window_bound.2.2.2 131072).2 (by decide)⟩

/-- C3: hash-subqueue configuration.  `NUM_HASH_CONFIGS` is 5 with selector
learning and 3 without, `NUM_HASH_BUCKETS` is 128, `DEFAULT_HASH_THRESH` is 64,
so a depth of 65 exceeds the threshold while 63 and 64 do not; the header as
shipped enables learning, hence 5 hash configs. -/
theorem hash_subqueue_config :
    NUM_HASH_CONFIGS true = 5 ∧ NUM_HASH_CONFIGS false = 3 ∧
    NUM_HASH_BUCKETS = 128 ∧ DEFAULT_HASH_THRESH = 64 ∧
    DEFAULT_HASH_THRESH < 65 ∧ ¬ DEFAULT_HASH_THRESH < 64 ∧ ¬ DEFAULT_HASH_THRESH < 63 ∧
    LEARN_HASH_SELECTOR = true ∧ NUM_HASH_CONFIGS LEARN_HASH_SELECTOR = 5 := by
  decide

/-- The page mask of a `2 ^ k`-byte page, applied to a 64-bit value, rounds it
down to a multiple of the page size. -/
theorem and64_page_mask (k : Nat) (hk : k ≤ 64) (x : Nat) (hx : x < 2 ^ 64)
    (M : Int) (hM : Clib.toU64 M = 2 ^ 64 - 2 ^ k) :
    and64 x M = 2 ^ k * (x / 2 ^ k) := by
  unfold and64
  rw [hM]
  exact Clib.and_high_mask k hk x hx

/-- The page offset mask of a `2 ^ k`-byte page, applied to a value, gives its
remainder modulo the page size. -/
theorem and64_offset_mask (k : Nat) (x : Nat) (O : Int) (hO : Clib.toU64 O = 2 ^ k - 1) :
    and64 x O = x % 2 ^ k := by
  unfold and64
  rw [hO]
  exact Nat.and_pow_two_sub_one_eq_mod x k

/-- C4: GPU page alignment.  The GPU page size `P` is 65536 under the PSM_CUDA
profile and 4096 under the PSM_ONEAPI profile, and in each GPU build, for every
64-bit unsigned `x`, `x & GPU_PAGE_MASK` (the `int` mask `~(P - 1)` sign-extended
to 64 bits) is a multiple of `P`, is the greatest multiple of `P` not exceeding
`x` (`(x & GPU_PAGE_MASK) <= x < (x & GPU_PAGE_MASK) + P`), and
`x = (x & GPU_PAGE_MASK) + (x & GPU_PAGE_OFFSET_MASK)` with
`(x & GPU_PAGE_OFFSET_MASK) < P`. -/
theorem gpu_page_mask_floor (b : BuildFlags) (hgpu : PSM_HAVE_GPU b = true)
    (x : Nat) (hx : x < 2 ^ 64) :
    (b.PSM_CUDA = true → PSMI_GPU_PAGESIZE b = some 65536) ∧
    (b.PSM_CUDA = false → b.PSM_ONEAPI = true → PSMI_GPU_PAGESIZE b = some 4096) ∧
    ∃ P M O : Int,
      PSMI_GPU_PAGESIZE b = some P ∧ GPU_PAGE_MASK b = some M ∧
      GPU_PAGE_OFFSET_MASK b = some O ∧ M = ~~~ (P - 1) ∧
      and64 x M % P.toNat = 0 ∧
      and64 x M ≤ x ∧ x < and64 x M + P.toNat ∧
      (∀ m : Nat, m % P.toNat = 0 → m ≤ x → m ≤ and64 x M) ∧
      x = and64 x M + and64 x O ∧ and64 x O < P.toNat := by
  obtain ⟨cuda, oneapi, dbg⟩ := b
  cases cuda
  · cases oneapi
    · simp [PSM_HAVE_GPU] at hgpu
    · refine ⟨by simp, by simp [PSMI_GPU_PAGESIZE], 4096, ~~~ ((4096 : Int) - 1), 4096 - 1,
        by simp [PSMI_GPU_PAGESIZE], by simp [GPU_PAGE_MASK, GPU_PAGE_OFFSET_MASK,
          PSMI_GPU_PAGESIZE, PSM_HAVE_GPU], by simp [GPU_PAGE_OFFSET_MASK,
          PSMI_GPU_PAGESIZE, PSM_HAVE_GPU], rfl, ?_⟩
      have hM := and64_page_mask 12 (by decide) x hx (~~~ ((4096 : Int) - 1)) (by decide)
      have hO := and64_offset_mask 12 x ((4096 : Int) - 1) (by decide)
      have hP : (4096 : Int).toNat = 4096 := by decide
      rw [hM, hO, hP]
      norm_num
      refine ⟨?_, ?_, ?_, ?_, ?_⟩ <;> omega
  · refine ⟨by simp [PSMI_GPU_PAGESIZE], by simp, 65536, ~~~ ((65536 : Int) - 1), 65536 - 1,
      by simp [PSMI_GPU_PAGESIZE], by simp [GPU_PAGE_MASK, GPU_PAGE_OFFSET_MASK,
        PSMI_GPU_PAGESIZE, PSM_HAVE_GPU], by simp [GPU_PAGE_OFFSET_MASK,
        PSMI_GPU_PAGESIZE, PSM_HAVE_GPU], rfl, ?_⟩
    have hM := and64_page_mask 16 (by decide) x hx (~~~ ((65536 : Int) - 1)) (by decide)
    have hO := and64_offset_mask 16 x ((65536 : Int) - 1) (by decide)
    have hP : (65536 : Int).toNat = 65536 := by decide
    rw [hM, hO, hP]
    norm_num
    refine ⟨?_, ?_, ?_, ?_, ?_⟩ <;> omega

/-- Witness for C4: the CUDA build at the offset `0x12345`, whose page base is
`0x10000` and whose page offset is `0x2345`. -/
theorem gpu_page_mask_floor_witness :
    (PSM_HAVE_GPU ⟨true, false, false⟩ = true ∧ (0x12345 : Nat) < 2 ^ 64) ∧
    PSMI_GPU_PAGESIZE ⟨true, false, false⟩ = some 65536 ∧
    ∃ P M O : Int,
      PSMI_GPU_PAGESIZE ⟨true, false, false⟩ = some P ∧
      GPU_PAGE_MASK ⟨true, false, false⟩ = some M ∧
      GPU_PAGE_OFFSET_MASK ⟨true, false, false⟩ = some O ∧
      and64 0x12345 M % P.toNat = 0 ∧ 0x12345 = and64 0x12345 M + and64 0x12345 O := by
  have h := gpu_page_mask_floor ⟨true, false, false⟩ (by decide) 0x12345 (by decide)
  obtain ⟨h1, _, P, M, O, hP, hM, hO, _, hmod, _, _, _, hsum, _⟩ := h
  exact ⟨⟨by decide, by decide⟩, h1 rfl, P, M, O, hP, hM, hO, hmod, hsum⟩

/-- C5: GPU direct-copy limits.  In a GPU build a send of `n` bytes qualifies
for the GPU-direct single-copy path iff `n <= GDR_COPY_LIMIT_SEND = 128`, a
receive iff `n <= GDR_COPY_LIMIT_RECV = 64000`; every size that qualifies for
send qualifies for receive, and sizes 129..64000 qualify for receive only.  The
host staging buffer is 262144 bytes, 2 prefetch chunks are in flight, and the
GPU-direct rendezvous hysteresis threshold is 3. -/
theorem gdr_copy_limits (b : BuildFlags) (hgpu : PSM_HAVE_GPU b = true) :
    GDR_COPY_LIMIT_SEND b = some 128 ∧ GDR_COPY_LIMIT_RECV b = some 64000 ∧
    GPU_SMALLHOSTBUF_SZ b = some 262144 ∧ GPU_WINDOW_PREFETCH_DEFAULT b = some 2 ∧
    GPUDIRECT_THRESH_RV b = some 3 ∧
    ∀ n : Nat,
      (gdrCopySendQualifies b n = true ↔ n ≤ 128) ∧
      (gdrCopyRecvQualifies b n = true ↔ n ≤ 64000) ∧
      (gdrCopySendQualifies b n = true → gdrCopyRecvQualifies b n = true) ∧
      (129 ≤ n → n ≤ 64000 →
        gdrCopyRecvQualifies b n = true ∧ gdrCopySendQualifies b n = false) := by
  have hs : GDR_COPY_LIMIT_SEND b = some 128 := by simp [GDR_COPY_LIMIT_SEND, hgpu]
  have hr : GDR_COPY_LIMIT_RECV b = some 64000 := by simp [GDR_COPY_LIMIT_RECV, hgpu]
  refine ⟨hs, hr, by simp [GPU_SMALLHOSTBUF_SZ, hgpu], by simp [GPU_WINDOW_PREFETCH_DEFAULT, hgpu],
    by simp [GPUDIRECT_THRESH_RV, hgpu], ?_⟩
  intro n
  have es : gdrCopySendQualifies b n = decide (n ≤ 128) := by
    simp [gdrCopySendQualifies, hs]
  have er : gdrCopyRecvQualifies b n = decide (n ≤ 64000) := by
    simp [gdrCopyRecvQualifies, hr]
  rw [es, er]
  simp only [decide_eq_true_eq, decide_eq_false_iff_not]
  refine ⟨trivial, trivial, ?_, ?_⟩
  · intro h; omega
  · intro h1 h2; omega

/-- Witness for C5: the oneAPI build at 4096 bytes, which qualifies for the
receive side only. -/
theorem gdr_copy_limits_witness :
    PSM_HAVE_GPU ⟨false, true, false⟩ = true ∧ (129 : Nat) ≤ 4096 ∧ (4096 : Nat) ≤ 64000 ∧
    gdrCopyRecvQualifies ⟨false, true, false⟩ 4096 = true ∧
    gdrCopySendQualifies ⟨false, true, false⟩ 4096 = false :=
  ⟨by decide, by decide, by decide,
    ((gdr_copy_limits ⟨false, true, false⟩ (by decide)).2.2.2.2.2 4096).2.2.2
      (by decide) (by decide)⟩

/-- C6, as the spec states it, fails: the enable bit `0x1` of the default
receive-thread setting `PSMI_RCVTHREAD_FLAGS` is not clear. -/
theorem rcvthread_default_not_disabled : ¬ (PSMI_RCVTHREAD_FLAGS &&& 0x1 = 0) := by
  decide

/-- C6, amended: the dedicated receive thread is enabled by default, the default
setting `PSMI_RCVTHREAD_FLAGS` is `0x1` and has the enable bit `0x1` set. -/
theorem rcvthread_default_enabled :
    PSMI_RCVTHREAD_FLAGS = 0x1 ∧ PSMI_RCVTHREAD_FLAGS &&& 0x1 = 0x1 := by
  decide

/-- C7: lock discipline selection.  In every build (PSM_DEBUG defined or not)
exactly one of PSMI_LOCK_IS_SPINLOCK, PSMI_LOCK_IS_MUTEXLOCK and
PSMI_LOCK_IS_MUTEXLOCK_DEBUG is defined: the spinlock exactly when PSM_DEBUG is
not defined, the debug mutex exactly when it is, the plain mutex never; and
contention logging is defined in neither build. -/
theorem lock_discipline_selection (b : BuildFlags) :
    lockDisciplineCount (lockMacros b) = 1 ∧
    (lockMacros b).PSMI_LOCK_IS_SPINLOCK = !b.PSM_DEBUG ∧
    (lockMacros b).PSMI_LOCK_IS_MUTEXLOCK_DEBUG = b.PSM_DEBUG ∧
    (lockMacros b).PSMI_LOCK_IS_MUTEXLOCK = false ∧
    (lockMacros b).PSMI_LOCK_MUTEXLOCK_DEBUG_LOG_CONTENTION = false := by
  obtain ⟨cuda, oneapi, dbg⟩ := b
  cases dbg <;> simp [lockMacros, lockDisciplineCount]

/-- C8: multi-rail limits.  `PSMI_MAX_RAILS` and `PSMI_MAX_QPS` are both 32, and
the documented constraint `PSMI_MAX_QPS >= PSMI_MAX_RAILS` holds. -/
theorem multi_rail_limits :
    PSMI_MAX_RAILS = 32 ∧ PSMI_MAX_QPS = 32 ∧ PSMI_MAX_RAILS ≤ PSMI_MAX_QPS := by
  decide

end Psm3

namespace Clib

/-- The conversion to `int` lands in the range of `int`. -/
theorem toI32_range (i : Int) : -(2 ^ 31) ≤ toI32 i ∧ toI32 i < 2 ^ 31 := by
  unfold toI32
  split <;> omega

/-- On a value below `2 ^ 31` the conversion to `int` changes nothing. -/
theorem toI32_of_lt (n : Nat) (h : n < 2 ^ 31) : toI32 (n : Int) = n := by
  unfold toI32
  split <;> omega

/-- An `int` printed with `%d` takes at most 11 characters. -/
theorem fmt_d_length (i : Int) (h1 : -(2 ^ 31) ≤ i) (h2 : i < 2 ^ 31) :
    (fmt_d i).length ≤ 11 := by
  unfold fmt_d
  split
  · have hn : i.natAbs < 10 ^ 10 := by omega
    have hl := Nat.toDigitsCore_length 10 (by decide) (i.natAbs + 1) i.natAbs 10 hn (by decide)
    simp only [List.length_cons, Nat.toDigits]
    omega
  · have hn : i.toNat < 10 ^ 10 := by omega
    have hl := Nat.toDigitsCore_length 10 (by decide) (i.toNat + 1) i.toNat 10 hn (by decide)
    simp only [Nat.toDigits]
    omega

end Clib

namespace Opx

/-- The 256-byte `filename_storage` never truncates the sysfs path. -/
theorem sysfs_filename_untruncated (unit : Nat) :
    sysfs_filename unit =
      String.mk (sysfs_head.data ++ Clib.fmt_d (Clib.toI32 unit) ++ sysfs_tail.data) := by
  have hr := Clib.toI32_range (unit : Int)
  have hl := Clib.fmt_d_length (Clib.toI32 unit) hr.1 hr.2
  have h1 : sysfs_head.data.length = 27 := by decide
  have h2 : sysfs_tail.data.length = 17 := by decide
  have hlen : (sysfs_head.data ++ Clib.fmt_d (Clib.toI32 unit) ++ sysfs_tail.data).length
      ≤ 255 := by
    simp only [List.length_append, h1, h2]
    omega
  unfold sysfs_filename Clib.snprintf
  rw [List.take_of_length_le hlen]

/-- For a unit below `2 ^ 31` the `%d` of the sysfs path is the decimal numeral
of the unit. -/
theorem sysfs_filename_decimal (unit : Nat) (h : unit < 2 ^ 31) :
    sysfs_filename unit = sysfs_head ++ toString unit ++ sysfs_tail := by
  rw [sysfs_filename_untruncated, Clib.toI32_of_lt unit h]
  have hd : (toString unit).data = Nat.toDigits 10 unit := rfl
  have hf : Clib.fmt_d (unit : Int) = Nat.toDigits 10 unit := by
    unfold Clib.fmt_d
    rw [if_neg (by omega)]
    simp
  apply String.ext
  simp [hf, hd]

/-- The function `opx_open_sim_bar` opens the selected file and aborts on a
negative descriptor. -/
theorem opx_open_sim_bar_opens_selected (ndebug : Bool) (getenv : String → Option String)
    (openf : String → Int) (unit : Nat) (fname : String)
    (h : opx_open_sim_bar_filename ndebug getenv unit = Res.ok fname) :
    opx_open_sim_bar ndebug getenv openf unit =
      if openf fname < 0 then Res.abort else Res.ok (openf fname) := by
  unfold opx_open_sim_bar
  rw [h]

/-- C9: simulator BAR file selection in `opx_open_sim_bar`, with or without the
`assert`s compiled in.  (1) If HFI_FNAME is set, the file is its value, whatever
FI_OPX_SIMPCI_V and the unit are.  (2) Otherwise, if FI_OPX_SIMPCI_V is set, then
under the asserted preconditions `unit < 2` and `v = atoi(...)` in {0, 1} the
index `unit + 2 * v` is within the 4-entry `sim_barfiles` table (0..3) and the
file is that entry.  (3) Otherwise the file is
"/sys/class/infiniband/hfi1_<unit>/device/resource0", where `<unit>` is the unit
as `%d` prints it, untruncated; for a unit below `2 ^ 31` that is its decimal
numeral. -/
theorem opx_open_sim_bar_file_selection (ndebug : Bool)
    (getenv : String → Option String) (unit : Nat) :
    (∀ fname : String, getenv "HFI_FNAME" = some fname →
      opx_open_sim_bar_filename ndebug getenv unit = Res.ok fname) ∧
    (∀ s : String, getenv "HFI_FNAME" = none → getenv "FI_OPX_SIMPCI_V" = some s →
      unit < 2 → (Clib.atoi s = 0 ∨ Clib.atoi s = 1) →
      sim_barfiles.length = 4 ∧ unit + 2 * (Clib.atoi s).toNat < sim_barfiles.length ∧
      ∃ fname : String, sim_barfiles[unit + 2 * (Clib.atoi s).toNat]? = some fname ∧
        opx_open_sim_bar_filename ndebug getenv unit = Res.ok fname) ∧
    (getenv "HFI_FNAME" = none → getenv "FI_OPX_SIMPCI_V" = none →
      opx_open_sim_bar_filename ndebug getenv unit = Res.ok (sysfs_filename unit) ∧
      sysfs_filename unit =
        String.mk (sysfs_head.data ++ Clib.fmt_d (Clib.toI32 unit) ++ sysfs_tail.data) ∧
      (unit < 2 ^ 31 → sysfs_filename unit = sysfs_head ++ toString unit ++ sysfs_tail)) := by
  refine ⟨?_, ?_, ?_⟩
  · intro fname hf
    simp only [opx_open_sim_bar_filename, hf]
  · intro s hf hv hunit hatoi
    have hu : unit = 0 ∨ unit = 1 := by omega
    simp only [opx_open_sim_bar_filename, hf, hv]
    rcases hu with rfl | rfl <;> rcases hatoi with h | h <;> rw [h] <;>
      cases ndebug <;> simp [sim_barfiles]
  · intro hf hv
    refine ⟨?_, sysfs_filename_untruncated unit, sysfs_filename_decimal unit⟩
    simp only [opx_open_sim_bar_filename, hf, hv]

/-- Witness for C9: one environment for each of the three branches. -/
theorem opx_open_sim_bar_file_selection_witness :
    opx_open_sim_bar_filename false
      (Clib.getenv [("FI_OPX_SIMPCI_V", "1"), ("HFI_FNAME", "/tmp/bar0")]) 7
        = Res.ok "/tmp/bar0" ∧
    (∃ fname : String, sim_barfiles[1 + 2 * (Clib.atoi "1").toNat]? = some fname ∧
      opx_open_sim_bar_filename false (Clib.getenv [("FI_OPX_SIMPCI_V", "1")]) 1
        = Res.ok fname) ∧
    opx_open_sim_bar_filename false (Clib.getenv []) 3 = Res.ok (sysfs_filename 3) ∧
    sysfs_filename 3 = sysfs_head ++ toString 3 ++ sysfs_tail :=
  ⟨(opx_open_sim_bar_file_selection false
      (Clib.getenv [("FI_OPX_SIMPCI_V", "1"), ("HFI_FNAME", "/tmp/bar0")]) 7).1
      "/tmp/bar0" (by decide),
   ((opx_open_sim_bar_file_selection false (Clib.getenv [("FI_OPX_SIMPCI_V", "1")]) 1).2.1
      "1" (by decide) (by decide) (by decide) (by decide)).2.2,
   ((opx_open_sim_bar_file_selection false (Clib.getenv []) 3).2.2
      (by decide) (by decide)).1,
   ((opx_open_sim_bar_file_selection false (Clib.getenv []) 3).2.2
      (by decide) (by decide)).2.2 (by decide)⟩

/-- Below `2 ^ 63` the conversion of the offset to `long` changes nothing. -/
theorem toI64_of_lt (offset : Nat) (h : offset < 2 ^ 63) : Clib.toI64 offset = offset := by
  unfold Clib.toI64
  split <;> omega

/-- From `2 ^ 63` on the conversion of the offset to `long` is negative. -/
theorem toI64_of_ge (offset : Nat) (h1 : 2 ^ 63 ≤ offset) (h2 : offset < 2 ^ 64) :
    Clib.toI64 offset = (offset : Int) - 2 ^ 64 := by
  unfold Clib.toI64
  split <;> omega

/-- A negative offset makes `lseek` fail and leaves the descriptor alone. -/
theorem lseek_set_neg (f : SimFd) (o : Int) (h : o < 0) : lseek_set f o = (-1, f) := by
  unfold lseek_set
  have hd : decide (0 ≤ o) = false := decide_eq_false (by omega)
  rw [hd, Bool.and_false]
  rfl

/-- On a descriptor that cannot seek, `lseek` fails and leaves it alone. -/
theorem lseek_set_unseekable (f : SimFd) (o : Int) (h : f.seekable = false) :
    lseek_set f o = (-1, f) := by
  unfold lseek_set
  rw [h, Bool.false_and]
  rfl

/-- On a seekable descriptor and a non-negative offset `lseek` positions the
file at the offset and returns it. -/
theorem lseek_set_ok (f : SimFd) (o : Int) (hs : f.seekable = true) (h : 0 ≤ o) :
    lseek_set f o = (o, { f with pos := o.toNat }) := by
  unfold lseek_set
  have hd : decide (0 ≤ o) = true := decide_eq_true h
  rw [hs, hd, Bool.and_true]
  rfl

/-- When `lseek` returns something else than `(long) offset`, `opx_sim_store`
aborts with the descriptor as `lseek` left it. -/
theorem opx_sim_store_of_seek_ne (f : SimFd) (offset value : Nat)
    (h : (lseek_set f (Clib.toI64 offset)).1 ≠ Clib.toI64 offset) :
    opx_sim_store f offset value = SimOutcome.aborted (lseek_set f (Clib.toI64 offset)).2 := by
  unfold opx_sim_store
  exact if_pos h

/-- When `lseek` returns `(long) offset`, `opx_sim_store` goes on to `write`. -/
theorem opx_sim_store_of_seek_eq (f : SimFd) (offset value : Nat)
    (h : (lseek_set f (Clib.toI64 offset)).1 = Clib.toI64 offset) :
    opx_sim_store f offset value =
      if (write8 (lseek_set f (Clib.toI64 offset)).2 value).1 < 0
      then SimOutcome.aborted (write8 (lseek_set f (Clib.toI64 offset)).2 value).2
      else SimOutcome.returned (write8 (lseek_set f (Clib.toI64 offset)).2 value).2 () := by
  unfold opx_sim_store
  exact if_neg (not_not.mpr h)

/-- For every 64-bit offset other than `0xFFFFFFFFFFFFFFFF` the check of
`opx_sim_store` is exact: a failed `lseek` aborts with nothing written, and a
store that returns has written the value at exactly the requested offset. -/
theorem opx_sim_store_checked_below_max (f : SimFd) (offset value : Nat)
    (h : offset < 2 ^ 64 - 1) :
    ((lseek_set f (Clib.toI64 offset)).1 = -1 →
      opx_sim_store f offset value = SimOutcome.aborted f) ∧
    (∀ g : SimFd, opx_sim_store f offset value = SimOutcome.returned g () →
      (lseek_set f (Clib.toI64 offset)).1 = (offset : Int) ∧
      (lseek_set f (Clib.toI64 offset)).2.pos = offset ∧
      g.ops = f.ops ++ [SimOp.write offset value]) := by
  have hfail : lseek_set f (Clib.toI64 offset) = (-1, f) →
      opx_sim_store f offset value = SimOutcome.aborted f := by
    intro hl
    have hne : (lseek_set f (Clib.toI64 offset)).1 ≠ Clib.toI64 offset := by
      rw [hl]
      by_cases hlt : offset < 2 ^ 63
      · rw [toI64_of_lt offset hlt]; show (-1 : Int) ≠ offset; omega
      · rw [toI64_of_ge offset (by omega) (by omega)]
        show (-1 : Int) ≠ (offset : Int) - 2 ^ 64
        omega
    rw [opx_sim_store_of_seek_ne f offset value hne, hl]
  by_cases hok : f.seekable = true ∧ offset < 2 ^ 63
  · obtain ⟨hs, hlt⟩ := hok
    have e := toI64_of_lt offset hlt
    have hl := lseek_set_ok f (offset : Int) hs (by omega)
    rw [e, hl]
    constructor
    · intro h1
      have h2 : (offset : Int) = -1 := h1
      omega
    · intro g hg
      refine ⟨rfl, by simp, ?_⟩
      have hst := opx_sim_store_of_seek_eq f offset value (by rw [e, hl])
      rw [e, hl] at hst
      rw [hst] at hg
      unfold write8 at hg
      by_cases hio : f.io_ok = true
      · simp [hio] at hg
        rw [← hg]
      · simp [hio] at hg
  · have hl : lseek_set f (Clib.toI64 offset) = (-1, f) := by
      by_cases hs : f.seekable = true
      · have hge : ¬ offset < 2 ^ 63 := fun hlt => hok ⟨hs, hlt⟩
        apply lseek_set_neg
        rw [toI64_of_ge offset (by omega) (by omega)]
        omega
      · exact lseek_set_unseekable f _ (by simpa using hs)
    have hab := hfail hl
    constructor
    · intro _
      exact hab
    · intro g hg
      rw [hab] at hg
      cases hg

/-- The same exactness for `opx_sim_load`: for every 64-bit offset other than
`0xFFFFFFFFFFFFFFFF`, a failed `lseek` aborts with nothing read, and a load that
returns has read at exactly the requested offset. -/
theorem opx_sim_load_checked_below_max (mem : Nat → Nat) (f : SimFd) (offset : Nat)
    (h : offset < 2 ^ 64 - 1) :
    ((lseek_set f (Clib.toI64 offset)).1 = -1 →
      opx_sim_load mem f offset = SimOutcome.aborted f) ∧
    (∀ (g : SimFd) (v : Nat), opx_sim_load mem f offset = SimOutcome.returned g v →
      (lseek_set f (Clib.toI64 offset)).1 = (offset : Int) ∧
      v = mem offset ∧ g.ops = f.ops ++ [SimOp.read offset]) := by
  have hfail : lseek_set f (Clib.toI64 offset) = (-1, f) →
      opx_sim_load mem f offset = SimOutcome.aborted f := by
    intro hl
    have hne : (lseek_set f (Clib.toI64 offset)).1 ≠ Clib.toI64 offset := by
      rw [hl]
      by_cases hlt : offset < 2 ^ 63
      · rw [toI64_of_lt offset hlt]; show (-1 : Int) ≠ offset; omega
      · rw [toI64_of_ge offset (by omega) (by omega)]
        show (-1 : Int) ≠ (offset : Int) - 2 ^ 64
        omega
    unfold opx_sim_load
    rw [if_pos hne, hl]
  by_cases hok : f.seekable = true ∧ offset < 2 ^ 63
  · obtain ⟨hs, hlt⟩ := hok
    have e := toI64_of_lt offset hlt
    have hl := lseek_set_ok f (offset : Int) hs (by omega)
    rw [e, hl]
    constructor
    · intro h1
      have h2 : (offset : Int) = -1 := h1
      omega
    · intro g v hg
      refine ⟨rfl, ?_⟩
      unfold opx_sim_load at hg
      rw [e, hl] at hg
      unfold read8 at hg
      by_cases hio : f.io_ok = true
      · simp [hio] at hg
        obtain ⟨hg1, hg2⟩ := hg
        rw [← hg1, ← hg2]
        exact ⟨rfl, rfl⟩
      · simp [hio] at hg
  · have hl : lseek_set f (Clib.toI64 offset) = (-1, f) := by
      by_cases hs : f.seekable = true
      · have hge : ¬ offset < 2 ^ 63 := fun hlt => hok ⟨hs, hlt⟩
        apply lseek_set_neg
        rw [toI64_of_ge offset (by omega) (by omega)]
        omega
      · exact lseek_set_unseekable f _ (by simpa using hs)
    have hab := hfail hl
    constructor
    · intro _
      exact hab
    · intro g v hg
      rw [hab] at hg
      cases hg

/-- C10 fails at offset `0xFFFFFFFFFFFFFFFF`.  There `lseek` fails (returns `-1`,
the file offset is unchanged), `(long) offset` is `-1` as well, the check
`ret != loffset` does not fire, and `opx_sim_store` writes (and `opx_sim_load`
reads) at the unchanged file offset and returns instead of aborting. -/
theorem opx_sim_seek_check_misses_max_offset (mem : Nat → Nat) (f : SimFd) (value : Nat)
    (hio : f.io_ok = true) :
    lseek_set f (Clib.toI64 0xFFFFFFFFFFFFFFFF) = (-1, f) ∧
    opx_sim_store f 0xFFFFFFFFFFFFFFFF value =
      SimOutcome.returned
        { f with pos := f.pos + 8, ops := f.ops ++ [SimOp.write f.pos value] } () ∧
    opx_sim_load mem f 0xFFFFFFFFFFFFFFFF =
      SimOutcome.returned
        { f with pos := f.pos + 8, ops := f.ops ++ [SimOp.read f.pos] } (mem f.pos) := by
  have e : Clib.toI64 0xFFFFFFFFFFFFFFFF = -1 := by decide
  have hl : lseek_set f (-1) = (-1, f) := by simp [lseek_set]
  refine ⟨by rw [e, hl], ?_, ?_⟩
  · simp [opx_sim_store, e, hl, write8, hio]
  · simp [opx_sim_load, e, hl, read8, hio]

/-- Witness for C10: a seekable descriptor at file offset 64; the store at offset
`0xFFFFFFFFFFFFFFFF` returns after writing the value at file offset 64. -/
theorem opx_sim_seek_check_misses_max_offset_witness :
    opx_sim_store ⟨true, true, 64, []⟩ 0xFFFFFFFFFFFFFFFF 5 =
      SimOutcome.returned ⟨true, true, 72, [SimOp.write 64 5]⟩ () :=
  (opx_sim_seek_check_misses_max_offset (fun _ => 0) ⟨true, true, 64, []⟩ 5 rfl).2.1

end Opx

namespace Opx

/-- For a context number below `2 ^ 47` the `long` product
`context * (64 * 1024L)` does not overflow and is `context * 65536`. -/
theorem pio_context_offset_eq (c : Nat) (h : c < 2 ^ 47) :
    pio_context_offset c = c * 65536 := by
  unfold pio_context_offset
  rw [toI64_of_lt (c * (64 * 1024)) (by omega)]
  unfold Clib.toU64
  omega

/-- Simulator build: the PIO address of a context below `2 ^ 47`. -/
theorem sim_pio_eq (t w c i : Nat) (h : c < 2 ^ 47) :
    OPX_HFI1_INIT_PIO true t w c i = 0x2000000 + c * 65536 := by
  unfold OPX_HFI1_INIT_PIO
  rw [if_pos rfl, ite_self, pio_context_offset_eq c h]
  unfold OPX_TXE_PIO_SEND
  omega

/-- Simulator build: the PIO_SOP address of a context below `2 ^ 47`. -/
theorem sim_pio_sop_eq (t w c i : Nat) (h : c < 2 ^ 47) :
    OPX_HFI1_INIT_PIO_SOP true t w c i = 0x2000000 + c * 65536 + 16 * 1024 * 1024 := by
  unfold OPX_HFI1_INIT_PIO_SOP
  rw [if_pos rfl, ite_self, pio_context_offset_eq c h]
  unfold OPX_TXE_PIO_SEND
  omega

/-- Simulator build: the user-register address of a context below `2 ^ 47`, as
base plus context times the stride of the selected chip. -/
theorem sim_uregs_eq (t w c i : Nat) (h : c < 2 ^ 47) :
    OPX_HFI1_INIT_UREGS true t w c i =
      (if t &&& w ≠ 0 then 0x1300000 else 0x1600000) + c * uregs_stride t w := by
  unfold OPX_HFI1_INIT_UREGS uregs_stride
  rw [if_pos rfl]
  unfold OPX_WFR_RXE_PER_CONTEXT_OFFSET OPX_WFR_RXE_UCTX_STRIDE
    OPX_JKR_RXE_PER_CONTEXT_OFFSET OPX_JKR_RXE_UCTX_STRIDE
  split <;> omega

/-- Windows of one stride each at `base + c * stride` do not overlap and do not
coincide for distinct `c`. -/
theorem strided_windows_disjoint (base stride c d : Nat) (hs : 0 < stride) (hne : c ≠ d) :
    base + c * stride ≠ base + d * stride ∧
    windowsDisjoint (base + c * stride) stride (base + d * stride) stride := by
  unfold windowsDisjoint
  rcases Nat.lt_or_gt_of_ne hne with hlt | hgt
  · have h1 : (c + 1) * stride ≤ d * stride := Nat.mul_le_mul_right stride hlt
    rw [Nat.add_mul, Nat.one_mul] at h1
    exact ⟨by omega, Or.inl (by omega)⟩
  · have h1 : (d + 1) * stride ≤ c * stride := Nat.mul_le_mul_right stride hgt
    rw [Nat.add_mul, Nat.one_mul] at h1
    exact ⟨by omega, Or.inr (by omega)⟩

/-- C11: simulator register address layout.  In the simulator build, for every
context number `c` (below `2 ^ 47`, so that the `long` product
`context * (64 * 1024L)` does not overflow), `OPX_HFI1_INIT_PIO` gives
`0x2000000 + c * 65536` and `OPX_HFI1_INIT_PIO_SOP` gives that address plus
16 MiB, both whatever the chip type and the input argument are;
`OPX_HFI1_INIT_UREGS` gives `0x1300000 + c * 4096` on WFR and
`0x1600000 + c * 8192` otherwise.  Distinct contexts get distinct,
non-overlapping windows of one stride each, and for contexts `c, d < 256` the
64 KiB PIO window of `c` does not overlap the 64 KiB PIO_SOP window of `d`.  In
the non-simulator build the three macros return their input unchanged. -/
theorem sim_register_layout (hfi1_type wfr c d input : Nat)
    (hc : c < 2 ^ 47) (hd : d < 2 ^ 47) :
    ( OPX_HFI1_INIT_PIO true hfi1_type wfr c input = 0x2000000 + c * 65536) ∧
    (OPX_HFI1_INIT_PIO_SOP true hfi1_type wfr c input
      = 0x2000000 + c * 65536 + 16 * 1024 * 1024) ∧
    (∀ t w i : Nat,
      ( OPX_HFI1_INIT_PIO true t w c i = OPX_HFI1_INIT_PIO true hfi1_type wfr c input) ∧
      OPX_HFI1_INIT_PIO_SOP true t w c i = OPX_HFI1_INIT_PIO_SOP true hfi1_type wfr c input) ∧
    (hfi1_type &&& wfr ≠ 0 →
      OPX_HFI1_INIT_UREGS true hfi1_type wfr c input = 0x1300000 + c * 4096) ∧
    (hfi1_type &&& wfr = 0 →
      OPX_HFI1_INIT_UREGS true hfi1_type wfr c input = 0x1600000 + c * 8192) ∧
    (c ≠ d →
      ( OPX_HFI1_INIT_PIO true hfi1_type wfr c input
        ≠ OPX_HFI1_INIT_PIO true hfi1_type wfr d input) ∧
      windowsDisjoint ( OPX_HFI1_INIT_PIO true hfi1_type wfr c input) 65536
        ( OPX_HFI1_INIT_PIO true hfi1_type wfr d input) 65536 ∧
      OPX_HFI1_INIT_PIO_SOP true hfi1_type wfr c input
        ≠ OPX_HFI1_INIT_PIO_SOP true hfi1_type wfr d input ∧
      windowsDisjoint (OPX_HFI1_INIT_PIO_SOP true hfi1_type wfr c input) 65536
        (OPX_HFI1_INIT_PIO_SOP true hfi1_type wfr d input) 65536 ∧
      OPX_HFI1_INIT_UREGS true hfi1_type wfr c input
        ≠ OPX_HFI1_INIT_UREGS true hfi1_type wfr d input ∧
      windowsDisjoint (OPX_HFI1_INIT_UREGS true hfi1_type wfr c input)
        (uregs_stride hfi1_type wfr)
        (OPX_HFI1_INIT_UREGS true hfi1_type wfr d input) (uregs_stride hfi1_type wfr)) ∧
    (c < 256 → d < 256 →
      windowsDisjoint ( OPX_HFI1_INIT_PIO true hfi1_type wfr c input) 65536
        (OPX_HFI1_INIT_PIO_SOP true hfi1_type wfr d input) 65536) ∧
    ( OPX_HFI1_INIT_PIO false hfi1_type wfr c input = input) ∧
    OPX_HFI1_INIT_PIO_SOP false hfi1_type wfr c input = input ∧
    OPX_HFI1_INIT_UREGS false hfi1_type wfr c input = input := by
  have hstride : 0 < uregs_stride hfi1_type wfr := by
    unfold uregs_stride OPX_WFR_RXE_UCTX_STRIDE OPX_JKR_RXE_UCTX_STRIDE
    split <;> decide
  refine ⟨sim_pio_eq _ _ c _ hc, sim_pio_sop_eq _ _ c _ hc, ?_, ?_, ?_, ?_, ?_, rfl, rfl, rfl⟩
  · intro t w i
    rw [sim_pio_eq t w c i hc, sim_pio_eq _ _ c _ hc, sim_pio_sop_eq t w c i hc,
      sim_pio_sop_eq _ _ c _ hc]
    exact ⟨rfl, rfl⟩
  · intro hw
    rw [sim_uregs_eq _ _ c _ hc, if_pos hw]
    unfold uregs_stride OPX_WFR_RXE_UCTX_STRIDE
    rw [if_pos hw]
  · intro hw
    have hw2 : ¬ (hfi1_type &&& wfr ≠ 0) := not_not.mpr hw
    rw [sim_uregs_eq _ _ c _ hc, if_neg hw2]
    unfold uregs_stride OPX_JKR_RXE_UCTX_STRIDE
    rw [if_neg hw2]
  · intro hne
    rw [sim_pio_eq _ _ c _ hc, sim_pio_eq _ _ d _ hd, sim_pio_sop_eq _ _ c _ hc,
      sim_pio_sop_eq _ _ d _ hd, sim_uregs_eq _ _ c _ hc, sim_uregs_eq _ _ d _ hd]
    have h1 := strided_windows_disjoint 0x2000000 65536 c d (by decide) hne
    have h2 := strided_windows_disjoint (0x2000000 + 16 * 1024 * 1024) 65536 c d
      (by decide) hne
    have h3 := strided_windows_disjoint (if hfi1_type &&& wfr ≠ 0 then 0x1300000 else 0x1600000)
      (uregs_stride hfi1_type wfr) c d hstride hne
    unfold windowsDisjoint at h1 h2 ⊢
    refine ⟨h1.1, h1.2, by omega, by omega, h3.1, h3.2⟩
  · intro h1 h2
    rw [sim_pio_eq _ _ c _ hc, sim_pio_sop_eq _ _ d _ hd]
    unfold windowsDisjoint
    omega

/-- Witness for C11: contexts 3 and 5 on a WFR chip (`OPX_HFI1_TYPE` and
`OPX_HFI1_WFR` both 2). -/
theorem sim_register_layout_witness :
    ((3 : Nat) < 2 ^ 47 ∧ (5 : Nat) < 2 ^ 47) ∧
    ( OPX_HFI1_INIT_PIO true 2 2 3 0 = 0x2030000) ∧
    OPX_HFI1_INIT_PIO_SOP true 2 2 3 0 = 0x3030000 ∧
    OPX_HFI1_INIT_UREGS true 2 2 3 0 = 0x1303000 ∧
    windowsDisjoint ( OPX_HFI1_INIT_PIO true 2 2 3 0) 65536
      (OPX_HFI1_INIT_PIO_SOP true 2 2 5 0) 65536 := by
  have h := sim_register_layout 2 2 3 5 0 (by decide) (by decide)
  exact ⟨⟨by decide, by decide⟩, h.1, h.2.1, h.2.2.2.1 (by decide),
    h.2.2.2.2.2.2.1 (by decide) (by decide)⟩

end Opx
